import Mathlib

/-!
Verification of the Submission Service backend (`src/backend/server.py`).

The service is a small FastAPI application over MongoDB with five routes:
health check, contact-form submission, newsletter subscription, and two
listing endpoints.  We give a shallow embedding:

* Mongo documents are association lists `Dict` of string keys to `Val`
  (a string or a JSON null).
* The pydantic models `ContactForm` and `Newsletter` become structures;
  pydantic construction from a dict (plain `str` fields, `Optional[str]`
  fields, and fields with a `default_factory`) becomes `ContactForm.validate`
  and `Newsletter.validate`.  The nondeterministic defaults
  (`uuid.uuid4()`, `datetime.now(...)`) are passed in explicitly as the
  `fid` / `ts` arguments: they are the values the factories would produce
  at that construction.
* The external MongoDB store is a `DB` state: two collections (lists of
  documents in insertion order), a connectivity flag, and whether the
  unique index on `newsletter.email` exists.  `insert_one` on the
  newsletter collection raises `DuplicateKeyError` exactly when the unique
  index exists and a stored document has the same `email` value (Mongo's
  documented unique-index behaviour); any storage operation raises a
  connection error when the store is unreachable.
* Each route handler becomes a function from the request (already-parsed
  or raw body dict) and the `DB` state to an `Except HTTPError` result
  together with the successor state; `HTTPException(status_code, detail)`
  becomes the `HTTPError` structure.
-/

set_option autoImplicit false

namespace SmsDigi

/-- A JSON-ish value stored in a document field: a string or null.  The
service only ever stores strings and `None` for the optional fields. -/
inductive Val where
  | vstr : String → Val
  | vnull : Val
  deriving DecidableEq, Repr

/-- A Mongo document / Python dict: an association list from keys to values
(keys are unique in every document the system builds). -/
abbrev Dict := List (String × Val)

/-- `doc.pop(k, None)` on a dict value: drop every pair with key `k`. -/
def dictPop (d : Dict) (k : String) : Dict :=
  d.filter (fun p => p.1 ≠ k)

/-- `strip_mongo_id` from `server.py`, as a pure function on dict values:
`if not doc: return doc` (falsy = empty), otherwise copy and pop `"_id"`. -/
def strip_mongo_id (doc : Dict) : Dict :=
  if doc.isEmpty then doc else dictPop doc "_id"

/-! ### The imperative version of `strip_mongo_id`

The Python function receives a reference to a dict; it copies the dict
(`doc = dict(doc)`) and pops `"_id"` from the copy, leaving the caller's
dict untouched.  To make that non-mutation claim meaningful we also embed
the function against an explicit heap of dicts addressed by index. -/

/-- A heap of Python dict objects; an address is an index into `cells`. -/
structure Heap where
  cells : List Dict
  deriving Repr

/-- Dereference an address (out-of-range reads give the empty dict). -/
def Heap.get (h : Heap) (a : Nat) : Dict :=
  h.cells.getD a []

/-- Allocate a fresh dict object, returning the new heap and its address. -/
def Heap.alloc (h : Heap) (d : Dict) : Heap × Nat :=
  (⟨h.cells ++ [d]⟩, h.cells.length)

/-- Overwrite the object at an address. -/
def Heap.set (h : Heap) (a : Nat) (d : Dict) : Heap :=
  ⟨h.cells.set a d⟩

/-- `strip_mongo_id` operating on the heap: `if not doc: return doc`;
`doc = dict(doc)` allocates a copy; `doc.pop("_id", None)` mutates the
copy; the copy's address is returned. -/
def strip_mongo_id_heap (h : Heap) (a : Nat) : Heap × Nat :=
  let doc := h.get a
  if doc.isEmpty then (h, a)
  else
    let p := h.alloc doc
    let h2 := (p.1).set p.2 (dictPop ((p.1).get p.2) "_id")
    (h2, p.2)

/-! ### Pydantic models

`ContactForm` and `Newsletter` in `server.py` declare every field as a
plain `str` / `Optional[str]` — there is no `EmailStr`, no `min_length`,
no custom validator.  Pydantic therefore accepts any string (empty
strings and non-email strings included); it rejects a required field that
is missing or null, and a `str` field supplied as null.  A field with a
`default_factory` may be supplied by the caller; the factory only runs
when the key is absent. -/

/-- Pydantic extraction of a required `str` field: present string is
accepted as-is, missing or null is a validation error (named by field). -/
def getStr (d : Dict) (k : String) : Except String String :=
  match d.lookup k with
  | some (Val.vstr s) => .ok s
  | some Val.vnull => .error k
  | none => .error k

/-- Pydantic extraction of an `Optional[str] = None` field: absent or null
becomes `none`. -/
def getOptStr (d : Dict) (k : String) : Except String (Option String) :=
  match d.lookup k with
  | some (Val.vstr s) => .ok (some s)
  | some Val.vnull => .ok none
  | none => .ok none

/-- Pydantic extraction of a `str` field with a `default_factory`: a
supplied string wins, null is rejected, absence falls back to the
factory's value `dflt`. -/
def getStrD (d : Dict) (k : String) (dflt : String) : Except String String :=
  match d.lookup k with
  | some (Val.vstr s) => .ok s
  | some Val.vnull => .error k
  | none => .ok dflt

/-- The `ContactForm` pydantic model of `server.py`. -/
structure ContactForm where
  id : String
  name : String
  email : String
  company : Option String
  phone : Option String
  message : Option String
  plan_interest : Option String
  created_at : String
  deriving DecidableEq, Repr

/-- Constructing a `ContactForm` from a request-body dict, i.e. pydantic
validation of the model.  `fid` is the value `str(uuid.uuid4())` would
produce at this construction and `ts` the value
`datetime.now(timezone.utc).isoformat()` would produce; they are used
only when the corresponding key is absent.  Extra keys are ignored
(pydantic's default). -/
def ContactForm.validate (fid ts : String) (d : Dict) :
    Except String ContactForm := do
  let i ← getStrD d "id" fid
  let n ← getStr d "name"
  let e ← getStr d "email"
  let co ← getOptStr d "company"
  let ph ← getOptStr d "phone"
  let me ← getOptStr d "message"
  let pl ← getOptStr d "plan_interest"
  let ca ← getStrD d "created_at" ts
  return ⟨i, n, e, co, ph, me, pl, ca⟩

/-- `Optional[str]` serialization: `None` becomes null. -/
def optVal : Option String → Val
  | some s => Val.vstr s
  | none => Val.vnull

/-- `contact.model_dump()`: the flat dict of all model fields. -/
def ContactForm.model_dump (c : ContactForm) : Dict :=
  [ ("id", Val.vstr c.id), ("name", Val.vstr c.name),
    ("email", Val.vstr c.email), ("company", optVal c.company),
    ("phone", optVal c.phone), ("message", optVal c.message),
    ("plan_interest", optVal c.plan_interest),
    ("created_at", Val.vstr c.created_at) ]

/-- The `Newsletter` pydantic model of `server.py`. -/
structure Newsletter where
  id : String
  email : String
  created_at : String
  deriving DecidableEq, Repr

/-- Constructing a `Newsletter` from a request-body dict (pydantic
validation); `fid` / `ts` as in `ContactForm.validate`. -/
def Newsletter.validate (fid ts : String) (d : Dict) :
    Except String Newsletter := do
  let i ← getStrD d "id" fid
  let e ← getStr d "email"
  let ca ← getStrD d "created_at" ts
  return ⟨i, e, ca⟩

/-- `newsletter.model_dump()`. -/
def Newsletter.model_dump (n : Newsletter) : Dict :=
  [ ("id", Val.vstr n.id), ("email", Val.vstr n.email),
    ("created_at", Val.vstr n.created_at) ]

/-! ### The MongoDB store -/

/-- The state of the external MongoDB database: the two collections used
by the service (documents in insertion order), whether the store is
reachable, and whether the unique index on `newsletter.email` exists. -/
structure DB where
  connected : Bool
  contacts : List Dict
  newsletter : List Dict
  newsletterUniqueIndex : Bool
  deriving DecidableEq, Repr

/-- Errors a Mongo driver call can raise: `DuplicateKeyError` from a
unique-index violation, or any other failure (connection loss etc.). -/
inductive MongoError where
  | duplicateKey : MongoError
  | connectionFailure : MongoError
  deriving DecidableEq, Repr

/-- `db.contacts.insert_one(doc)`: fails when the store is unreachable,
otherwise appends (the `contacts` collection has no unique index beyond
the driver-generated `_id`, which is fresh for each insert). -/
def contactsInsertOne (db : DB) (doc : Dict) : Except MongoError DB :=
  if db.connected then
    .ok { db with contacts := db.contacts ++ [doc] }
  else .error .connectionFailure

/-- `db.newsletter.insert_one(doc)`: fails when the store is unreachable;
raises `DuplicateKeyError` when the unique index on `email` exists and
some stored document already has the same `email` value; otherwise
appends. -/
def newsletterInsertOne (db : DB) (doc : Dict) : Except MongoError DB :=
  if db.connected then
    if db.newsletterUniqueIndex &&
        db.newsletter.any
          (fun d => decide (d.lookup "email" = doc.lookup "email")) then
      .error .duplicateKey
    else .ok { db with newsletter := db.newsletter ++ [doc] }
  else .error .connectionFailure

/-! ### Routes -/

/-- An `HTTPException(status_code, detail)` response. -/
structure HTTPError where
  status : Nat
  detail : String
  deriving DecidableEq, Repr

/-- The body returned by a healthy `/api/health`. -/
structure HealthResponse where
  status : String
  database : String
  deriving DecidableEq, Repr

/-- `health_check` (`GET /api/health`): ping the store; on success return
the healthy body, on any exception raise 503 "Service unavailable". -/
def health_check (db : DB) : Except HTTPError HealthResponse :=
  if db.connected then .ok ⟨"healthy", "connected"⟩
  else .error ⟨503, "Service unavailable"⟩

/-- `ensure_indexes` (startup hook): ping, then create the unique index on
`newsletter.email`.  Any exception is caught and merely logged, so on an
unreachable store the state is unchanged and startup continues.  Index
creation is Mongo `create_index`, a no-op when the index already
exists. -/
def ensure_indexes (db : DB) : DB :=
  if db.connected then { db with newsletterUniqueIndex := true } else db

/-- `submit_contact_form` (`POST /api/contact`) after body validation:
insert the model dump (the driver adds the storage `_id`, here `oid`);
any exception maps to 500.  Returns the response and the store state. -/
def submit_contact_form (oid : String) (db : DB) (contact : ContactForm) :
    Except HTTPError ContactForm × DB :=
  match contactsInsertOne db
      (contact.model_dump ++ [("_id", Val.vstr oid)]) with
  | .ok db2 => (.ok contact, db2)
  | .error _ => (.error ⟨500, "Failed to submit contact form"⟩, db)

/-- `subscribe_newsletter` (`POST /api/newsletter`) after body validation:
insert the model dump; `DuplicateKeyError` maps to
400 "Email already subscribed", any other exception to 500. -/
def subscribe_newsletter (oid : String) (db : DB) (newsletter : Newsletter) :
    Except HTTPError Newsletter × DB :=
  match newsletterInsertOne db
      (newsletter.model_dump ++ [("_id", Val.vstr oid)]) with
  | .ok db2 => (.ok newsletter, db2)
  | .error .duplicateKey => (.error ⟨400, "Email already subscribed"⟩, db)
  | .error .connectionFailure =>
      (.error ⟨500, "Failed to subscribe to newsletter"⟩, db)

/-- The full `POST /api/contact` endpoint: FastAPI first builds the
`ContactForm` from the request body (422 on pydantic failure), then runs
the handler. -/
def submitContactEndpoint (fid ts oid : String) (db : DB) (body : Dict) :
    Except HTTPError ContactForm × DB :=
  match ContactForm.validate fid ts body with
  | .error e => (.error ⟨422, e⟩, db)
  | .ok c => submit_contact_form oid db c

/-- The full `POST /api/newsletter` endpoint: FastAPI first builds the
`Newsletter` from the request body (422 on pydantic failure), then runs
the handler. -/
def subscribeEndpoint (fid ts oid : String) (db : DB) (body : Dict) :
    Except HTTPError Newsletter × DB :=
  match Newsletter.validate fid ts body with
  | .error e => (.error ⟨422, e⟩, db)
  | .ok n => subscribe_newsletter oid db n

/-- The list comprehension `[Model(**strip_mongo_id(c)) for c in docs]`:
build each record, stopping at the first pydantic failure. -/
def parseAll {α : Type} (p : Dict → Except String α) :
    List Dict → Except String (List α)
  | [] => .ok []
  | d :: rest =>
    match p d with
    | .error e => .error e
    | .ok c =>
      match parseAll p rest with
      | .error e => .error e
      | .ok l => .ok (c :: l)

/-- `get_contacts` (`GET /api/contacts`): read all documents of the
`contacts` collection and rebuild `ContactForm` records; any exception
(read failure or pydantic failure on a document) maps to 500. -/
def get_contacts (fid ts : String) (db : DB) :
    Except HTTPError (List ContactForm) :=
  if db.connected then
    match parseAll
        (fun c => ContactForm.validate fid ts (strip_mongo_id c))
        db.contacts with
    | .ok l => .ok l
    | .error _ => .error ⟨500, "Failed to fetch contacts"⟩
  else .error ⟨500, "Failed to fetch contacts"⟩

/-- `get_subscribers` (`GET /api/subscribers`): as `get_contacts` over the
`newsletter` collection. -/
def get_subscribers (fid ts : String) (db : DB) :
    Except HTTPError (List Newsletter) :=
  if db.connected then
    match parseAll
        (fun s => Newsletter.validate fid ts (strip_mongo_id s))
        db.newsletter with
    | .ok l => .ok l
    | .error _ => .error ⟨500, "Failed to fetch subscribers"⟩
  else .error ⟨500, "Failed to fetch subscribers"⟩

/-! ### Executions -/

/-- One request against the running service (the `fid`, `ts`, `oid`
arguments are the values the respective generators produce during that
request), or a change in store connectivity between requests. -/
inductive Op where
  | submitContact (fid ts oid : String) (body : Dict) : Op
  | subscribeNews (fid ts oid : String) (body : Dict) : Op
  | listContacts (fid ts : String) : Op
  | listSubscribers (fid ts : String) : Op
  | healthCheck : Op
  | setConnected (b : Bool) : Op

/-- The effect of one operation on the store state (read-only routes leave
it unchanged). -/
def applyOp (db : DB) (op : Op) : DB :=
  match op with
  | .submitContact fid ts oid body => (submitContactEndpoint fid ts oid db body).2
  | .subscribeNews fid ts oid body => (subscribeEndpoint fid ts oid db body).2
  | .listContacts _ _ => db
  | .listSubscribers _ _ => db
  | .healthCheck => db
  | .setConnected b => { db with connected := b }

/-- Run a sequence of operations. -/
def applyOps (db : DB) (ops : List Op) : DB :=
  ops.foldl applyOp db

/-- No two documents of a newsletter collection share an `email` value. -/
def noDupEmails (l : List Dict) : Prop :=
  l.Pairwise (fun d1 d2 => d1.lookup "email" ≠ d2.lookup "email")

/-! ### Dictionary lemmas -/

theorem lookup_dictPop_ne (d : Dict) (k0 k : String) (hk : k ≠ k0) :
    (dictPop d k0).lookup k = d.lookup k := by
  induction d with
  | nil => rfl
  | cons p rest ih =>
    obtain ⟨pk, pv⟩ := p
    by_cases hp : pk = k0
    · subst hp
      have h1 : dictPop ((pk, pv) :: rest) pk = dictPop rest pk := by
        simp [dictPop]
      have hkp : (k == pk) = false := by
        simpa using hk
      rw [h1, ih, List.lookup_cons]
      simp [hkp]
    · have h1 : dictPop ((pk, pv) :: rest) k0 = (pk, pv) :: dictPop rest k0 := by
        simp [dictPop, hp]
      rw [h1, List.lookup_cons, List.lookup_cons]
      cases hkp : (k == pk) <;> simp [hkp, ih]

theorem lookup_strip_ne (d : Dict) (k : String) (hk : k ≠ "_id") :
    (strip_mongo_id d).lookup k = d.lookup k := by
  unfold strip_mongo_id
  by_cases h : d.isEmpty
  · simp [h]
  · simp [h, lookup_dictPop_ne d "_id" k hk]

theorem mem_dictPop (d : Dict) (k0 k : String) (v : Val) :
    (k, v) ∈ dictPop d k0 ↔ ((k, v) ∈ d ∧ k ≠ k0) := by
  simp [dictPop, List.mem_filter]

theorem strip_mongo_id_idem (d : Dict) :
    strip_mongo_id (strip_mongo_id d) = strip_mongo_id d := by
  unfold strip_mongo_id
  by_cases h : d.isEmpty = true
  · simp [h]
  · rw [if_neg h]
    by_cases h2 : (dictPop d "_id").isEmpty = true
    · rw [if_pos h2]
    · rw [if_neg h2]
      simp [dictPop, List.filter_filter]

theorem lookup_append_left {d1 d2 : Dict} {k : String} {v : Val}
    (h : d1.lookup k = some v) : (d1 ++ d2).lookup k = some v := by
  induction d1 with
  | nil => rw [List.lookup_nil] at h; cases h
  | cons p rest ih =>
    obtain ⟨pk, pv⟩ := p
    rw [List.lookup_cons] at h
    rw [List.cons_append, List.lookup_cons]
    cases hkp : (k == pk) <;> rw [hkp] at h <;> simp [hkp]
    · exact ih h
    · exact Option.some.inj h

theorem lookup_append_right {d1 d2 : Dict} {k : String}
    (h : d1.lookup k = none) : (d1 ++ d2).lookup k = d2.lookup k := by
  induction d1 with
  | nil => rfl
  | cons p rest ih =>
    obtain ⟨pk, pv⟩ := p
    rw [List.lookup_cons] at h
    rw [List.cons_append, List.lookup_cons]
    cases hkp : (k == pk) <;> rw [hkp] at h <;> simp [hkp]
    · exact ih h
    · cases h

/-! ### Pydantic model lemmas -/

theorem getStr_ok_lookup {d : Dict} {k s : String} (h : getStr d k = .ok s) :
    d.lookup k = some (Val.vstr s) := by
  unfold getStr at h
  cases hl : d.lookup k with
  | none => simp [hl] at h
  | some v =>
    cases v with
    | vstr t => simp [hl] at h; simp [hl, h]
    | vnull => simp [hl] at h

theorem getStrD_of_lookup_none {d : Dict} {k : String} (dflt : String)
    (h : d.lookup k = none) : getStrD d k dflt = .ok dflt := by
  simp [getStrD, h]

theorem getStr_of_lookup_none {d : Dict} {k : String}
    (h : d.lookup k = none) : getStr d k = .error k := by
  simp [getStr, h]

theorem news_validate_iff (fid ts : String) (d : Dict) (n : Newsletter) :
    Newsletter.validate fid ts d = .ok n ↔
      (getStrD d "id" fid = .ok n.id ∧ getStr d "email" = .ok n.email ∧
        getStrD d "created_at" ts = .ok n.created_at) := by
  obtain ⟨ni, ne, nc⟩ := n
  cases hi : getStrD d "id" fid <;>
    cases he : getStr d "email" <;>
      cases hc : getStrD d "created_at" ts <;>
        simp [Newsletter.validate, hi, he, hc, Bind.bind, Except.bind,
          pure, Except.pure, Newsletter.mk.injEq]

theorem contact_validate_iff (fid ts : String) (d : Dict)
    (c : ContactForm) :
    ContactForm.validate fid ts d = .ok c ↔
      (getStrD d "id" fid = .ok c.id ∧ getStr d "name" = .ok c.name ∧
        getStr d "email" = .ok c.email ∧
        getOptStr d "company" = .ok c.company ∧
        getOptStr d "phone" = .ok c.phone ∧
        getOptStr d "message" = .ok c.message ∧
        getOptStr d "plan_interest" = .ok c.plan_interest ∧
        getStrD d "created_at" ts = .ok c.created_at) := by
  obtain ⟨ci, cn, ce, cco, cph, cme, cpl, cca⟩ := c
  cases hi : getStrD d "id" fid <;>
    cases hn : getStr d "name" <;>
      cases he : getStr d "email" <;>
        cases hco : getOptStr d "company" <;>
          cases hph : getOptStr d "phone" <;>
            cases hme : getOptStr d "message" <;>
              cases hpl : getOptStr d "plan_interest" <;>
                cases hca : getStrD d "created_at" ts <;>
                  simp [ContactForm.validate, hi, hn, he, hco, hph, hme, hpl,
                    hca, Bind.bind, Except.bind, pure, Except.pure,
                    ContactForm.mk.injEq]

theorem contact_validate_model_dump (fid ts : String) (c : ContactForm) :
    ContactForm.validate fid ts c.model_dump = .ok c := by
  cases c with
  | mk i n e co ph me pl ca =>
    cases co <;> cases ph <;> cases me <;> cases pl <;> rfl

theorem news_validate_model_dump (fid ts : String) (n : Newsletter) :
    Newsletter.validate fid ts n.model_dump = .ok n := rfl

theorem strip_dump_contact (c : ContactForm) (v : Val) :
    strip_mongo_id (c.model_dump ++ [("_id", v)]) = c.model_dump := by
  simp [strip_mongo_id, dictPop, ContactForm.model_dump, List.filter]

theorem strip_dump_news (n : Newsletter) (v : Val) :
    strip_mongo_id (n.model_dump ++ [("_id", v)]) = n.model_dump := by
  simp [strip_mongo_id, dictPop, Newsletter.model_dump, List.filter]

theorem news_dump_lookup_email (n : Newsletter) (v : Val) :
    (n.model_dump ++ [("_id", v)]).lookup "email" = some (Val.vstr n.email) :=
  rfl

theorem Newsletter.validate_email {fid ts : String} {body : Dict}
    {n : Newsletter} (h : Newsletter.validate fid ts body = .ok n) :
    body.lookup "email" = some (Val.vstr n.email) := by
  rw [news_validate_iff] at h
  exact getStr_ok_lookup h.2.1

/-! ### Subscription lemmas -/

theorem newsletterInsertOne_ok (db : DB) (doc : Dict)
    (hconn : db.connected = true)
    (hfresh : ∀ d ∈ db.newsletter, d.lookup "email" ≠ doc.lookup "email") :
    newsletterInsertOne db doc =
      .ok { db with newsletter := db.newsletter ++ [doc] } := by
  unfold newsletterInsertOne
  have hany : (db.newsletter.any
      fun d => decide (d.lookup "email" = doc.lookup "email")) = false := by
    rw [List.any_eq_false]
    intro d hd
    simpa using hfresh d hd
  simp [hconn, hany]

theorem newsletterInsertOne_dup (db : DB) (doc : Dict)
    (hconn : db.connected = true)
    (hidx : db.newsletterUniqueIndex = true)
    (hdup : ∃ d ∈ db.newsletter, d.lookup "email" = doc.lookup "email") :
    newsletterInsertOne db doc = .error .duplicateKey := by
  unfold newsletterInsertOne
  have hany : (db.newsletter.any
      fun d => decide (d.lookup "email" = doc.lookup "email")) = true := by
    rw [List.any_eq_true]
    obtain ⟨d, hd, he⟩ := hdup
    exact ⟨d, hd, by simpa using he⟩
  simp [hconn, hidx, hany]

theorem subscribe_newsletter_ok (oid : String) (db : DB) (n : Newsletter)
    (hconn : db.connected = true)
    (hfresh : ∀ d ∈ db.newsletter,
      d.lookup "email" ≠ some (Val.vstr n.email)) :
    subscribe_newsletter oid db n =
      (.ok n, { db with newsletter :=
        db.newsletter ++ [n.model_dump ++ [("_id", Val.vstr oid)]] }) := by
  unfold subscribe_newsletter
  rw [newsletterInsertOne_ok db _ hconn]
  intro d hd
  rw [news_dump_lookup_email]
  exact hfresh d hd

theorem subscribe_newsletter_dup (oid : String) (db : DB) (n : Newsletter)
    (hconn : db.connected = true)
    (hidx : db.newsletterUniqueIndex = true)
    (hdup : ∃ d ∈ db.newsletter,
      d.lookup "email" = some (Val.vstr n.email)) :
    subscribe_newsletter oid db n =
      (.error ⟨400, "Email already subscribed"⟩, db) := by
  unfold subscribe_newsletter
  rw [newsletterInsertOne_dup db _ hconn hidx]
  obtain ⟨d, hd, he⟩ := hdup
  exact ⟨d, hd, by rw [news_dump_lookup_email]; exact he⟩

theorem subscribeEndpoint_ok (fid ts oid : String) (db : DB) (body : Dict)
    (n : Newsletter)
    (hv : Newsletter.validate fid ts body = .ok n)
    (hconn : db.connected = true)
    (hfresh : ∀ d ∈ db.newsletter,
      d.lookup "email" ≠ some (Val.vstr n.email)) :
    subscribeEndpoint fid ts oid db body =
      (.ok n, { db with newsletter :=
        db.newsletter ++ [n.model_dump ++ [("_id", Val.vstr oid)]] }) := by
  unfold subscribeEndpoint
  rw [hv]
  exact subscribe_newsletter_ok oid db n hconn hfresh

theorem subscribeEndpoint_dup (fid ts oid : String) (db : DB) (body : Dict)
    (n : Newsletter)
    (hv : Newsletter.validate fid ts body = .ok n)
    (hconn : db.connected = true)
    (hidx : db.newsletterUniqueIndex = true)
    (hdup : ∃ d ∈ db.newsletter,
      d.lookup "email" = some (Val.vstr n.email)) :
    subscribeEndpoint fid ts oid db body =
      (.error ⟨400, "Email already subscribed"⟩, db) := by
  unfold subscribeEndpoint
  rw [hv]
  exact subscribe_newsletter_dup oid db n hconn hidx hdup

theorem submitContactEndpoint_ok (fid ts oid : String) (db : DB)
    (body : Dict) (c : ContactForm)
    (hv : ContactForm.validate fid ts body = .ok c)
    (hconn : db.connected = true) :
    submitContactEndpoint fid ts oid db body =
      (.ok c, { db with contacts :=
        db.contacts ++ [c.model_dump ++ [("_id", Val.vstr oid)]] }) := by
  unfold submitContactEndpoint submit_contact_form contactsInsertOne
  rw [hv]
  simp [hconn]

/-! ### Invariant preservation -/

theorem submitContactEndpoint_frame (fid ts oid : String) (db : DB)
    (body : Dict) :
    (submitContactEndpoint fid ts oid db body).2.newsletter = db.newsletter ∧
    (submitContactEndpoint fid ts oid db body).2.newsletterUniqueIndex =
      db.newsletterUniqueIndex := by
  unfold submitContactEndpoint submit_contact_form contactsInsertOne
  cases hv : ContactForm.validate fid ts body with
  | error e => exact ⟨rfl, rfl⟩
  | ok c =>
    cases hc : db.connected <;> simp [hc]

theorem subscribeEndpoint_preserves (fid ts oid : String) (db : DB)
    (body : Dict)
    (hidx : db.newsletterUniqueIndex = true)
    (hnd : noDupEmails db.newsletter) :
    (subscribeEndpoint fid ts oid db body).2.newsletterUniqueIndex = true ∧
    noDupEmails (subscribeEndpoint fid ts oid db body).2.newsletter := by
  cases hv : Newsletter.validate fid ts body with
  | error e =>
    have hst : (subscribeEndpoint fid ts oid db body).2 = db := by
      unfold subscribeEndpoint
      rw [hv]
    rw [hst]
    exact ⟨hidx, hnd⟩
  | ok n =>
    cases hc : db.connected with
    | false =>
      have hst : (subscribeEndpoint fid ts oid db body).2 = db := by
        unfold subscribeEndpoint subscribe_newsletter newsletterInsertOne
        rw [hv]
        simp [hc]
      rw [hst]
      exact ⟨hidx, hnd⟩
    | true =>
      by_cases hdup : ∃ d ∈ db.newsletter,
          d.lookup "email" = some (Val.vstr n.email)
      · rw [subscribeEndpoint_dup fid ts oid db body n hv hc hidx hdup]
        exact ⟨hidx, hnd⟩
      · push_neg at hdup
        rw [subscribeEndpoint_ok fid ts oid db body n hv hc hdup]
        refine ⟨hidx, ?_⟩
        rw [noDupEmails, List.pairwise_append]
        refine ⟨hnd, List.pairwise_singleton _ _, ?_⟩
        intro a ha b hb
        rw [List.mem_singleton] at hb
        subst hb
        rw [news_dump_lookup_email]
        exact hdup a ha

theorem applyOp_preserves (db : DB) (op : Op)
    (h : db.newsletterUniqueIndex = true ∧ noDupEmails db.newsletter) :
    (applyOp db op).newsletterUniqueIndex = true ∧
      noDupEmails (applyOp db op).newsletter := by
  cases op with
  | submitContact fid ts oid body =>
    have hf := submitContactEndpoint_frame fid ts oid db body
    rw [applyOp, hf.1, hf.2]
    exact h
  | subscribeNews fid ts oid body =>
    exact subscribeEndpoint_preserves fid ts oid db body h.1 h.2
  | listContacts fid ts => exact h
  | listSubscribers fid ts => exact h
  | healthCheck => exact h
  | setConnected b => exact h

theorem applyOps_preserves (ops : List Op) :
    ∀ db : DB, db.newsletterUniqueIndex = true ∧ noDupEmails db.newsletter →
      (applyOps db ops).newsletterUniqueIndex = true ∧
        noDupEmails (applyOps db ops).newsletter := by
  induction ops with
  | nil => exact fun db h => h
  | cons op rest ih =>
    intro db h
    exact ih (applyOp db op) (applyOp_preserves db op h)

/-! ### Listing lemmas -/

theorem parseAll_append {α : Type} (p : Dict → Except String α)
    (l1 l2 : List Dict) (r1 r2 : List α)
    (h1 : parseAll p l1 = .ok r1) (h2 : parseAll p l2 = .ok r2) :
    parseAll p (l1 ++ l2) = .ok (r1 ++ r2) := by
  induction l1 generalizing r1 with
  | nil =>
    rw [parseAll] at h1
    cases h1
    simpa using h2
  | cons d rest ih =>
    rw [parseAll] at h1
    rw [List.cons_append, parseAll]
    cases hp : p d with
    | error e => rw [hp] at h1; cases h1
    | ok c =>
      rw [hp] at h1
      cases hr : parseAll p rest with
      | error e => rw [hr] at h1; cases h1
      | ok l =>
        rw [hr] at h1
        cases h1
        rw [ih l hr]
        rfl

theorem parseAll_contact_dumps (fid ts : String)
    (cs : List (ContactForm × String)) :
    parseAll (fun c => ContactForm.validate fid ts (strip_mongo_id c))
        (cs.map (fun p => p.1.model_dump ++ [("_id", Val.vstr p.2)])) =
      .ok (cs.map Prod.fst) := by
  induction cs with
  | nil => rfl
  | cons p rest ih =>
    rw [List.map_cons, parseAll, strip_dump_contact,
      contact_validate_model_dump, ih, List.map_cons]

theorem parseAll_news_dumps (fid ts : String)
    (ns : List (Newsletter × String)) :
    parseAll (fun s => Newsletter.validate fid ts (strip_mongo_id s))
        (ns.map (fun p => p.1.model_dump ++ [("_id", Val.vstr p.2)])) =
      .ok (ns.map Prod.fst) := by
  induction ns with
  | nil => rfl
  | cons p rest ih =>
    rw [List.map_cons, parseAll, strip_dump_news,
      news_validate_model_dump, ih, List.map_cons]

theorem parseAll_error_of_mem {α : Type} (p : Dict → Except String α)
    (l : List Dict) (d : Dict) (hd : d ∈ l) (e : String)
    (he : p d = .error e) :
    ∃ e2, parseAll p l = .error e2 := by
  induction l with
  | nil => cases hd
  | cons d0 rest ih =>
    rw [List.mem_cons] at hd
    cases hp : p d0 with
    | error e0 => exact ⟨e0, by rw [parseAll, hp]⟩
    | ok c =>
      have hdr : d ∈ rest := by
        rcases hd with h | h
        · subst h; rw [hp] at he; cases he
        · exact h
      obtain ⟨e2, h2⟩ := ih hdr
      exact ⟨e2, by rw [parseAll, hp, h2]⟩

theorem contact_dump_lookup_internal (c : ContactForm) :
    (c.model_dump).lookup "_id" = none := by
  cases c with
  | mk i n e co ph me pl ca =>
    cases co <;> cases ph <;> cases me <;> cases pl <;> rfl

theorem news_dump_lookup_internal (n : Newsletter) :
    (n.model_dump).lookup "_id" = none := rfl

theorem lookup_single_ne (k k2 : String) (v : Val) (hk : k ≠ k2) :
    ([(k2, v)] : Dict).lookup k = none := by
  have hb : (k == k2) = false := by simpa using hk
  rw [List.lookup_cons]
  simp [hb]

theorem get_contacts_ok_inv {fid ts : String} {db : DB}
    {l : List ContactForm} (hconn : db.connected = true)
    (h : get_contacts fid ts db = .ok l) :
    parseAll (fun c => ContactForm.validate fid ts (strip_mongo_id c))
      db.contacts = .ok l := by
  unfold get_contacts at h
  rw [if_pos hconn] at h
  cases hres : parseAll
      (fun c => ContactForm.validate fid ts (strip_mongo_id c))
      db.contacts with
  | ok l2 =>
    rw [hres] at h
    cases h
    rfl
  | error e =>
    rw [hres] at h
    cases h

/-! ### Claim theorems -/

/-- C1: with the unique index on subscriber email in place (the startup
invariant) and the store reachable, of two `SubscribeNewsletter` calls
with the same request body the first succeeds and the second signals the
DuplicateError response (400, "Email already subscribed") leaving the
store unchanged; and after any further sequence of operations the
newsletter collection never contains two documents with the same email
value. -/
theorem C1_subscriber_email_unique
    (db : DB) (fid1 ts1 oid1 fid2 ts2 oid2 : String) (body : Dict)
    (n1 n2 : Newsletter)
    (hconn : db.connected = true)
    (hidx : db.newsletterUniqueIndex = true)
    (hnd : noDupEmails db.newsletter)
    (hv1 : Newsletter.validate fid1 ts1 body = .ok n1)
    (hv2 : Newsletter.validate fid2 ts2 body = .ok n2)
    (hfresh : ∀ d ∈ db.newsletter,
      d.lookup "email" ≠ some (Val.vstr n1.email)) :
    (subscribeEndpoint fid1 ts1 oid1 db body).1 = .ok n1 ∧
    (subscribeEndpoint fid2 ts2 oid2
        (subscribeEndpoint fid1 ts1 oid1 db body).2 body) =
      (.error ⟨400, "Email already subscribed"⟩,
        (subscribeEndpoint fid1 ts1 oid1 db body).2) ∧
    ∀ ops : List Op,
      noDupEmails
        (applyOps (subscribeEndpoint fid1 ts1 oid1 db body).2 ops).newsletter := by
  have h1 := subscribeEndpoint_ok fid1 ts1 oid1 db body n1 hv1 hconn hfresh
  have he12 : n1.email = n2.email := by
    have e1 := Newsletter.validate_email hv1
    have e2 := Newsletter.validate_email hv2
    exact Val.vstr.inj (Option.some.inj (e1.symm.trans e2))
  refine ⟨by rw [h1], ?_, ?_⟩
  · rw [h1]
    refine subscribeEndpoint_dup fid2 ts2 oid2 _ body n2 hv2 hconn hidx ?_
    refine ⟨n1.model_dump ++ [("_id", Val.vstr oid1)],
      List.mem_append_right _ (List.mem_singleton_self _), ?_⟩
    rw [news_dump_lookup_email, he12]
  · intro ops
    exact (applyOps_preserves ops _
      (subscribeEndpoint_preserves fid1 ts1 oid1 db body hidx hnd)).2

/-- C1 witness: a concrete run on an empty, indexed, connected store with
the email "x@y.com". -/
theorem C1_subscriber_email_unique_witness :
    (subscribeEndpoint "f1" "t1" "o1" ⟨true, [], [], true⟩
        [("email", Val.vstr "x@y.com")]).1 =
      .ok ⟨"f1", "x@y.com", "t1"⟩ ∧
    (subscribeEndpoint "f2" "t2" "o2"
        (subscribeEndpoint "f1" "t1" "o1" ⟨true, [], [], true⟩
          [("email", Val.vstr "x@y.com")]).2
        [("email", Val.vstr "x@y.com")]) =
      (.error ⟨400, "Email already subscribed"⟩,
        (subscribeEndpoint "f1" "t1" "o1" ⟨true, [], [], true⟩
          [("email", Val.vstr "x@y.com")]).2) ∧
    ∀ ops : List Op,
      noDupEmails
        (applyOps
          (subscribeEndpoint "f1" "t1" "o1" ⟨true, [], [], true⟩
            [("email", Val.vstr "x@y.com")]).2 ops).newsletter :=
  C1_subscriber_email_unique ⟨true, [], [], true⟩ "f1" "t1" "o1" "f2" "t2"
    "o2" [("email", Val.vstr "x@y.com")] ⟨"f1", "x@y.com", "t1"⟩
    ⟨"f2", "x@y.com", "t2"⟩ rfl rfl (List.Pairwise.nil) rfl rfl
    (by intro d hd; cases hd)

/-- C4: a `SubscribeNewsletter` call whose email is already present in the
subscriber store (unique index in place, store reachable) returns
DuplicateError: status 400 with detail "Email already subscribed", a
status distinct from the 422 validation, 500 storage and 503 health
responses, and the store is unchanged. -/
theorem C4_duplicate_is_distinct_response
    (db : DB) (fid ts oid : String) (body : Dict) (n : Newsletter)
    (hconn : db.connected = true)
    (hidx : db.newsletterUniqueIndex = true)
    (hv : Newsletter.validate fid ts body = .ok n)
    (hdup : ∃ d ∈ db.newsletter,
      d.lookup "email" = some (Val.vstr n.email)) :
    subscribeEndpoint fid ts oid db body =
      (.error ⟨400, "Email already subscribed"⟩, db) ∧
    (HTTPError.mk 400 "Email already subscribed").status ≠ 422 ∧
    (HTTPError.mk 400 "Email already subscribed").status ≠ 500 ∧
    (HTTPError.mk 400 "Email already subscribed").status ≠ 503 :=
  ⟨subscribeEndpoint_dup fid ts oid db body n hv hconn hidx hdup,
    by decide, by decide, by decide⟩

/-- C4 witness: subscribing "x@y.com" against a store that already holds a
subscriber document with that email. -/
theorem C4_duplicate_is_distinct_response_witness :
    subscribeEndpoint "f1" "t1" "o1"
        ⟨true, [],
          [[("id", Val.vstr "i0"), ("email", Val.vstr "x@y.com"),
            ("created_at", Val.vstr "t0"), ("_id", Val.vstr "m0")]], true⟩
        [("email", Val.vstr "x@y.com")] =
      (.error ⟨400, "Email already subscribed"⟩,
        ⟨true, [],
          [[("id", Val.vstr "i0"), ("email", Val.vstr "x@y.com"),
            ("created_at", Val.vstr "t0"), ("_id", Val.vstr "m0")]], true⟩) ∧
    (HTTPError.mk 400 "Email already subscribed").status ≠ 422 ∧
    (HTTPError.mk 400 "Email already subscribed").status ≠ 500 ∧
    (HTTPError.mk 400 "Email already subscribed").status ≠ 503 :=
  C4_duplicate_is_distinct_response
    ⟨true, [],
      [[("id", Val.vstr "i0"), ("email", Val.vstr "x@y.com"),
        ("created_at", Val.vstr "t0"), ("_id", Val.vstr "m0")]], true⟩
    "f1" "t1" "o1" [("email", Val.vstr "x@y.com")]
    ⟨"f1", "x@y.com", "t1"⟩ rfl rfl rfl
    ⟨[("id", Val.vstr "i0"), ("email", Val.vstr "x@y.com"),
        ("created_at", Val.vstr "t0"), ("_id", Val.vstr "m0")],
      List.mem_singleton_self _, rfl⟩

/-- C6: the health check returns the healthy body exactly when the store
round-trip succeeds, and on failure raises 503 "Service unavailable", a
status distinct from the generic 500 storage error of the other
operations. -/
theorem C6_health_check_contract (db : DB) :
    (db.connected = true → health_check db = .ok ⟨"healthy", "connected"⟩) ∧
    (db.connected = false →
      health_check db = .error ⟨503, "Service unavailable"⟩ ∧
      (HTTPError.mk 503 "Service unavailable").status ≠ 500) := by
  constructor
  · intro h
    simp [health_check, h]
  · intro h
    exact ⟨by simp [health_check, h], by decide⟩

/-- C6 witness: a reachable and an unreachable store. -/
theorem C6_health_check_contract_witness :
    health_check ⟨true, [], [], false⟩ = .ok ⟨"healthy", "connected"⟩ ∧
    health_check ⟨false, [], [], false⟩ =
      .error ⟨503, "Service unavailable"⟩ :=
  ⟨(C6_health_check_contract ⟨true, [], [], false⟩).1 rfl,
    ((C6_health_check_contract ⟨false, [], [], false⟩).2 rfl).1⟩

/-- C7: the listing endpoints return every stored record of their
collection (a store holding exactly the service-written documents yields
exactly the corresponding records, in order); an empty collection yields
the empty list, not an error; an unreachable store yields the 500
StorageError response. -/
theorem C7_listing_contract (fid ts : String) (db : DB) :
    (db.connected = true → db.contacts = [] →
      get_contacts fid ts db = .ok []) ∧
    (db.connected = true → db.newsletter = [] →
      get_subscribers fid ts db = .ok []) ∧
    (db.connected = false →
      get_contacts fid ts db = .error ⟨500, "Failed to fetch contacts"⟩ ∧
      get_subscribers fid ts db =
        .error ⟨500, "Failed to fetch subscribers"⟩) ∧
    (∀ cs : List (ContactForm × String), db.connected = true →
      db.contacts =
        cs.map (fun p => p.1.model_dump ++ [("_id", Val.vstr p.2)]) →
      get_contacts fid ts db = .ok (cs.map Prod.fst)) ∧
    (∀ ns : List (Newsletter × String), db.connected = true →
      db.newsletter =
        ns.map (fun p => p.1.model_dump ++ [("_id", Val.vstr p.2)]) →
      get_subscribers fid ts db = .ok (ns.map Prod.fst)) := by
  refine ⟨?_, ?_, ?_, ?_, ?_⟩
  · intro hconn hc
    unfold get_contacts
    rw [hc, if_pos hconn, parseAll]
  · intro hconn hc
    unfold get_subscribers
    rw [hc, if_pos hconn, parseAll]
  · intro hconn
    constructor
    · unfold get_contacts
      rw [if_neg (by rw [hconn]; exact Bool.false_ne_true)]
    · unfold get_subscribers
      rw [if_neg (by rw [hconn]; exact Bool.false_ne_true)]
  · intro cs hconn hc
    unfold get_contacts
    rw [hc, if_pos hconn, parseAll_contact_dumps]
  · intro ns hconn hc
    unfold get_subscribers
    rw [hc, if_pos hconn, parseAll_news_dumps]

/-- C7 witness: a connected store holding one contact and one subscriber
written by the service, and an unreachable store. -/
theorem C7_listing_contract_witness :
    get_contacts "f" "t"
        ⟨true,
          [ContactForm.model_dump
              ⟨"i1", "Ada", "a@b.com", none, none, none, none, "t1"⟩ ++
            [("_id", Val.vstr "m1")]], [], true⟩ =
      .ok [⟨"i1", "Ada", "a@b.com", none, none, none, none, "t1"⟩] ∧
    get_contacts "f" "t" ⟨true, [], [], true⟩ = .ok [] ∧
    get_contacts "f" "t" ⟨false, [], [], true⟩ =
      .error ⟨500, "Failed to fetch contacts"⟩ ∧
    get_subscribers "f" "t" ⟨false, [], [], true⟩ =
      .error ⟨500, "Failed to fetch subscribers"⟩ :=
  ⟨(C7_listing_contract "f" "t" _).2.2.2.1
      [(⟨"i1", "Ada", "a@b.com", none, none, none, none, "t1"⟩, "m1")]
      rfl rfl,
    (C7_listing_contract "f" "t" _).1 rfl rfl,
    ((C7_listing_contract "f" "t" ⟨false, [], [], true⟩).2.2.1 rfl).1,
    ((C7_listing_contract "f" "t" ⟨false, [], [], true⟩).2.2.1 rfl).2⟩

/-- C8: records returned by the listing endpoints omit the storage `_id`:
a stored document that is a model dump plus an `_id` attribute is
returned as the model record, whose serialization has no `_id` key and
agrees with the stored document on every other key (the model attributes,
the service's `id` included, as stored).  Holds for contacts and
subscribers. -/
theorem C8_internal_id_stripped (fid ts : String) (c : ContactForm)
    (n : Newsletter) (v w : Val) (db : DB)
    (hconn : db.connected = true)
    (hc : db.contacts = [c.model_dump ++ [("_id", v)]])
    (hn : db.newsletter = [n.model_dump ++ [("_id", w)]]) :
    (get_contacts fid ts db = .ok [c] ∧
      (c.model_dump).lookup "_id" = none ∧
      ∀ k : String, k ≠ "_id" →
        (c.model_dump).lookup k =
          (c.model_dump ++ [("_id", v)]).lookup k) ∧
    (get_subscribers fid ts db = .ok [n] ∧
      (n.model_dump).lookup "_id" = none ∧
      ∀ k : String, k ≠ "_id" →
        (n.model_dump).lookup k =
          (n.model_dump ++ [("_id", w)]).lookup k) := by
  constructor
  · refine ⟨?_, contact_dump_lookup_internal c, ?_⟩
    · unfold get_contacts
      rw [hc, if_pos hconn, parseAll, strip_dump_contact,
        contact_validate_model_dump, parseAll]
    · intro k hk
      cases hl : (c.model_dump).lookup k with
      | some v2 => rw [lookup_append_left hl]
      | none => rw [lookup_append_right hl, lookup_single_ne k "_id" v hk]
  · refine ⟨?_, news_dump_lookup_internal n, ?_⟩
    · unfold get_subscribers
      rw [hn, if_pos hconn, parseAll, strip_dump_news,
        news_validate_model_dump, parseAll]
    · intro k hk
      cases hl : (n.model_dump).lookup k with
      | some v2 => rw [lookup_append_left hl]
      | none => rw [lookup_append_right hl, lookup_single_ne k "_id" w hk]

/-- C8 witness: one stored contact and one stored subscriber, each with a
storage `_id`. -/
theorem C8_internal_id_stripped_witness :
    get_contacts "f" "t"
        ⟨true,
          [ContactForm.model_dump
              ⟨"i1", "Ada", "a@b.com", none, none, none, none, "t1"⟩ ++
            [("_id", Val.vstr "m1")]],
          [Newsletter.model_dump ⟨"i2", "x@y.com", "t2"⟩ ++
            [("_id", Val.vstr "m2")]], true⟩ =
      .ok [⟨"i1", "Ada", "a@b.com", none, none, none, none, "t1"⟩] ∧
    (ContactForm.model_dump
        ⟨"i1", "Ada", "a@b.com", none, none, none, none, "t1"⟩).lookup
      "_id" = none ∧
    get_subscribers "f" "t"
        ⟨true,
          [ContactForm.model_dump
              ⟨"i1", "Ada", "a@b.com", none, none, none, none, "t1"⟩ ++
            [("_id", Val.vstr "m1")]],
          [Newsletter.model_dump ⟨"i2", "x@y.com", "t2"⟩ ++
            [("_id", Val.vstr "m2")]], true⟩ =
      .ok [⟨"i2", "x@y.com", "t2"⟩] ∧
    (Newsletter.model_dump ⟨"i2", "x@y.com", "t2"⟩).lookup "_id" = none ∧
    (ContactForm.model_dump
        ⟨"i1", "Ada", "a@b.com", none, none, none, none, "t1"⟩).lookup
        "email" =
      (ContactForm.model_dump
          ⟨"i1", "Ada", "a@b.com", none, none, none, none, "t1"⟩ ++
        [("_id", Val.vstr "m1")]).lookup "email" := by
  have h := C8_internal_id_stripped "f" "t"
    ⟨"i1", "Ada", "a@b.com", none, none, none, none, "t1"⟩
    ⟨"i2", "x@y.com", "t2"⟩ (Val.vstr "m1") (Val.vstr "m2")
    ⟨true,
      [ContactForm.model_dump
          ⟨"i1", "Ada", "a@b.com", none, none, none, none, "t1"⟩ ++
        [("_id", Val.vstr "m1")]],
      [Newsletter.model_dump ⟨"i2", "x@y.com", "t2"⟩ ++
        [("_id", Val.vstr "m2")]], true⟩ rfl rfl rfl
  exact ⟨h.1.1, h.1.2.1, h.2.1, h.2.2.1, h.1.2.2 "email" (by decide)⟩

/-- C9: when any single stored document cannot be rebuilt as its record
type (contacts: required `name` missing; subscribers: required `email`
missing), the whole listing request fails with the 500 StorageError
response rather than skipping the document or returning a partial
list. -/
theorem C9_malformed_doc_fails_request (fid ts : String) (db : DB)
    (hconn : db.connected = true) :
    (∀ d ∈ db.contacts, d.lookup "name" = none →
      get_contacts fid ts db = .error ⟨500, "Failed to fetch contacts"⟩) ∧
    (∀ d ∈ db.newsletter, d.lookup "email" = none →
      get_subscribers fid ts db =
        .error ⟨500, "Failed to fetch subscribers"⟩) := by
  constructor
  · intro d hd hname
    have hnotok : ∀ c : ContactForm,
        ContactForm.validate fid ts (strip_mongo_id d) ≠ .ok c := by
      intro c hok
      rw [contact_validate_iff] at hok
      have hl := getStr_ok_lookup hok.2.1
      rw [lookup_strip_ne d "name" (by decide), hname] at hl
      cases hl
    obtain ⟨e, he⟩ : ∃ e,
        ContactForm.validate fid ts (strip_mongo_id d) = .error e := by
      cases hres : ContactForm.validate fid ts (strip_mongo_id d) with
      | error e2 => exact ⟨e2, rfl⟩
      | ok c => exact absurd hres (hnotok c)
    obtain ⟨e2, h2⟩ := parseAll_error_of_mem
      (fun c => ContactForm.validate fid ts (strip_mongo_id c))
      db.contacts d hd e he
    unfold get_contacts
    rw [if_pos hconn, h2]
  · intro d hd hemail
    have hnotok : ∀ n : Newsletter,
        Newsletter.validate fid ts (strip_mongo_id d) ≠ .ok n := by
      intro n hok
      rw [news_validate_iff] at hok
      have hl := getStr_ok_lookup hok.2.1
      rw [lookup_strip_ne d "email" (by decide), hemail] at hl
      cases hl
    obtain ⟨e, he⟩ : ∃ e,
        Newsletter.validate fid ts (strip_mongo_id d) = .error e := by
      cases hres : Newsletter.validate fid ts (strip_mongo_id d) with
      | error e2 => exact ⟨e2, rfl⟩
      | ok n => exact absurd hres (hnotok n)
    obtain ⟨e2, h2⟩ := parseAll_error_of_mem
      (fun s => Newsletter.validate fid ts (strip_mongo_id s))
      db.newsletter d hd e he
    unfold get_subscribers
    rw [if_pos hconn, h2]

/-- C9 witness: a contacts document missing `name` (between two
well-formed documents) and a newsletter document missing `email`. -/
theorem C9_malformed_doc_fails_request_witness :
    get_contacts "f" "t"
        ⟨true,
          [ContactForm.model_dump
              ⟨"i1", "Ada", "a@b.com", none, none, none, none, "t1"⟩ ++
            [("_id", Val.vstr "m1")],
          [("id", Val.vstr "i2"), ("email", Val.vstr "b@c.com"),
            ("_id", Val.vstr "m2")]],
          [[("id", Val.vstr "i3"), ("created_at", Val.vstr "t3"),
            ("_id", Val.vstr "m3")]], true⟩ =
      .error ⟨500, "Failed to fetch contacts"⟩ ∧
    get_subscribers "f" "t"
        ⟨true,
          [ContactForm.model_dump
              ⟨"i1", "Ada", "a@b.com", none, none, none, none, "t1"⟩ ++
            [("_id", Val.vstr "m1")],
          [("id", Val.vstr "i2"), ("email", Val.vstr "b@c.com"),
            ("_id", Val.vstr "m2")]],
          [[("id", Val.vstr "i3"), ("created_at", Val.vstr "t3"),
            ("_id", Val.vstr "m3")]], true⟩ =
      .error ⟨500, "Failed to fetch subscribers"⟩ := by
  have h := C9_malformed_doc_fails_request "f" "t"
    ⟨true,
      [ContactForm.model_dump
          ⟨"i1", "Ada", "a@b.com", none, none, none, none, "t1"⟩ ++
        [("_id", Val.vstr "m1")],
      [("id", Val.vstr "i2"), ("email", Val.vstr "b@c.com"),
        ("_id", Val.vstr "m2")]],
      [[("id", Val.vstr "i3"), ("created_at", Val.vstr "t3"),
        ("_id", Val.vstr "m3")]], true⟩ rfl
  refine ⟨h.1 [("id", Val.vstr "i2"), ("email", Val.vstr "b@c.com"),
      ("_id", Val.vstr "m2")] ?_ rfl,
    h.2 [("id", Val.vstr "i3"), ("created_at", Val.vstr "t3"),
      ("_id", Val.vstr "m3")] ?_ rfl⟩
  · exact List.mem_cons_of_mem _ (List.mem_singleton_self _)
  · exact List.mem_singleton_self _

theorem heap_alloc_get (h : Heap) (d : Dict) :
    ((h.alloc d).1).get (h.alloc d).2 = d := by
  simp [Heap.alloc, Heap.get, List.getElem?_concat_length]

theorem heap_alloc_get_old (h : Heap) (d : Dict) (a : Nat)
    (ha : a < h.cells.length) : ((h.alloc d).1).get a = h.get a := by
  simp [Heap.alloc, Heap.get, List.getElem?_append_left ha]

theorem heap_set_get_self (h : Heap) (a : Nat) (d : Dict)
    (ha : a < h.cells.length) : (h.set a d).get a = d := by
  simp [Heap.set, Heap.get, List.getElem?_set_self ha]

theorem heap_set_get_ne (h : Heap) (a b : Nat) (d : Dict) (hab : a ≠ b) :
    (h.set a d).get b = h.get b := by
  simp [Heap.set, Heap.get, List.getElem?_set_ne hab]

/-- C10: `strip_mongo_id` on a non-empty dict returns a dict holding
exactly the entries of the argument except those keyed `_id`; the
argument object on the heap is not mutated by the call; the result is the
pure `strip_mongo_id` of the argument's value, and the operation is
idempotent on values. -/
theorem C10_strip_mongo_id_frame (h : Heap) (a : Nat)
    (ha : a < h.cells.length) (hne : h.get a ≠ []) :
    (∀ (k : String) (v : Val),
      (k, v) ∈ (strip_mongo_id_heap h a).1.get (strip_mongo_id_heap h a).2 ↔
        ((k, v) ∈ h.get a ∧ k ≠ "_id")) ∧
    (strip_mongo_id_heap h a).1.get a = h.get a ∧
    (strip_mongo_id_heap h a).1.get (strip_mongo_id_heap h a).2 =
      strip_mongo_id (h.get a) ∧
    strip_mongo_id (strip_mongo_id (h.get a)) = strip_mongo_id (h.get a) := by
  have hE : (h.get a).isEmpty = false := by
    cases hd : h.get a with
    | nil => exact absurd hd hne
    | cons p rest => rfl
  have hres : strip_mongo_id_heap h a =
      ((h.alloc (h.get a)).1.set (h.alloc (h.get a)).2
          (dictPop ((h.alloc (h.get a)).1.get (h.alloc (h.get a)).2) "_id"),
        (h.alloc (h.get a)).2) := by
    simp only [strip_mongo_id_heap, hE, Bool.false_eq_true, if_false]
  have halloc2 : (h.alloc (h.get a)).2 = h.cells.length := rfl
  have hlen : (h.alloc (h.get a)).2 < ((h.alloc (h.get a)).1).cells.length := by
    rw [halloc2]
    simp [Heap.alloc]
  have hget_res : (strip_mongo_id_heap h a).1.get (strip_mongo_id_heap h a).2 =
      dictPop (h.get a) "_id" := by
    rw [hres]
    rw [heap_set_get_self _ _ _ hlen, heap_alloc_get]
  have hstrip : strip_mongo_id (h.get a) = dictPop (h.get a) "_id" := by
    unfold strip_mongo_id
    rw [hE]
    rfl
  refine ⟨?_, ?_, ?_, strip_mongo_id_idem (h.get a)⟩
  · intro k v
    rw [hget_res]
    exact mem_dictPop (h.get a) "_id" k v
  · rw [hres]
    rw [heap_set_get_ne _ _ _ _ (by rw [halloc2]; exact Nat.ne_of_gt ha)]
    exact heap_alloc_get_old h (h.get a) a ha
  · rw [hget_res, hstrip]

/-- C10 witness: a one-object heap holding a dict with an `_id` entry and
one data entry. -/
theorem C10_strip_mongo_id_frame_witness :
    (("x", Val.vstr "1") ∈
        (strip_mongo_id_heap ⟨[[("_id", Val.vstr "m"), ("x", Val.vstr "1")]]⟩
            0).1.get
          (strip_mongo_id_heap ⟨[[("_id", Val.vstr "m"), ("x", Val.vstr "1")]]⟩
            0).2 ↔
      (("x", Val.vstr "1") ∈
          ([("_id", Val.vstr "m"), ("x", Val.vstr "1")] : Dict) ∧
        ("x" : String) ≠ "_id")) ∧
    (strip_mongo_id_heap ⟨[[("_id", Val.vstr "m"), ("x", Val.vstr "1")]]⟩
          0).1.get 0 =
      [("_id", Val.vstr "m"), ("x", Val.vstr "1")] := by
  have h := C10_strip_mongo_id_frame
    ⟨[[("_id", Val.vstr "m"), ("x", Val.vstr "1")]]⟩ 0 (by decide)
    (by decide)
  exact ⟨h.1 "x" (Val.vstr "1"), h.2.1⟩

/-- C2 (code divergence): the pydantic models declare `name` and `email`
as plain `str` with no validators, so the endpoints accept — and store —
a contact with an empty name and a subscription whose email is not valid
email syntax, returning 200 instead of the ValidationError that the spec
and the repository's own test suite (`backend_test.py`,
`test_invalid_data_submissions`) expect. -/
theorem C2_no_syntactic_validation :
    subscribeEndpoint "f1" "t1" "o1" ⟨true, [], [], true⟩
        [("email", Val.vstr "not-an-email")] =
      (.ok ⟨"f1", "not-an-email", "t1"⟩,
        ⟨true, [],
          [[("id", Val.vstr "f1"), ("email", Val.vstr "not-an-email"),
            ("created_at", Val.vstr "t1"), ("_id", Val.vstr "o1")]],
          true⟩) ∧
    submitContactEndpoint "f2" "t2" "o2" ⟨true, [], [], true⟩
        [("name", Val.vstr ""), ("email", Val.vstr "a@b.com")] =
      (.ok ⟨"f2", "", "a@b.com", none, none, none, none, "t2"⟩,
        ⟨true,
          [[("id", Val.vstr "f2"), ("name", Val.vstr ""),
            ("email", Val.vstr "a@b.com"), ("company", Val.vnull),
            ("phone", Val.vnull), ("message", Val.vnull),
            ("plan_interest", Val.vnull), ("created_at", Val.vstr "t2"),
            ("_id", Val.vstr "o2")]],
          [], true⟩) :=
  ⟨rfl, rfl⟩

/-- C3 counterexample: an `id` supplied by the caller in the request body
is used verbatim by `SubmitContact` instead of the freshly generated one
("fresh-id" here), because `id` is an ordinary pydantic field whose
default factory only runs when the key is absent. -/
theorem C3_caller_supplied_id_counterexample :
    (submitContactEndpoint "fresh-id" "t1" "o1" ⟨true, [], [], true⟩
        [("id", Val.vstr "caller-id"), ("name", Val.vstr "Ada"),
          ("email", Val.vstr "a@b.com")]).1 =
      .ok ⟨"caller-id", "Ada", "a@b.com", none, none, none, none, "t1"⟩ ∧
    ("caller-id" : String) ≠ "fresh-id" :=
  ⟨rfl, by decide⟩

/-- C3 amended: for a valid Contact body that does not supply `id` or
`created_at`, `SubmitContact` returns the record with the service-
generated fresh id and current-UTC timestamp, the persisted document is
exactly the returned record's dump (plus the storage `_id`), and a
subsequent `ListContacts` includes the record at the end of its
result. -/
theorem C3_submit_contact_amended
    (fid ts oid fid2 ts2 : String) (db : DB) (body : Dict)
    (c : ContactForm) (l : List ContactForm)
    (hconn : db.connected = true)
    (hid : body.lookup "id" = none)
    (hca : body.lookup "created_at" = none)
    (hv : ContactForm.validate fid ts body = .ok c)
    (hl : get_contacts fid2 ts2 db = .ok l) :
    (submitContactEndpoint fid ts oid db body).1 = .ok c ∧
    c.id = fid ∧ c.created_at = ts ∧
    (submitContactEndpoint fid ts oid db body).2 =
      { db with contacts :=
        db.contacts ++ [c.model_dump ++ [("_id", Val.vstr oid)]] } ∧
    get_contacts fid2 ts2 (submitContactEndpoint fid ts oid db body).2 =
      .ok (l ++ [c]) := by
  have hep := submitContactEndpoint_ok fid ts oid db body c hv hconn
  have hiff := (contact_validate_iff fid ts body c).mp hv
  have hcid : c.id = fid := by
    have h1 := hiff.1
    rw [getStrD_of_lookup_none fid hid] at h1
    exact (Except.ok.inj h1).symm
  have hcca : c.created_at = ts := by
    have h1 := hiff.2.2.2.2.2.2.2
    rw [getStrD_of_lookup_none ts hca] at h1
    exact (Except.ok.inj h1).symm
  have hwf := get_contacts_ok_inv hconn hl
  have hsingle : parseAll
      (fun d => ContactForm.validate fid2 ts2 (strip_mongo_id d))
      [c.model_dump ++ [("_id", Val.vstr oid)]] = .ok [c] := by
    rw [parseAll, strip_dump_contact, contact_validate_model_dump,
      parseAll]
  have happ := parseAll_append
    (fun d => ContactForm.validate fid2 ts2 (strip_mongo_id d))
    db.contacts [c.model_dump ++ [("_id", Val.vstr oid)]] l [c] hwf hsingle
  refine ⟨by rw [hep], hcid, hcca, by rw [hep], ?_⟩
  rw [hep]
  unfold get_contacts
  rw [if_pos hconn, happ]

/-- C3 amended witness: submitting Ada's contact form against an empty,
connected store. -/
theorem C3_submit_contact_amended_witness :
    (submitContactEndpoint "f1" "t1" "o1" ⟨true, [], [], true⟩
        [("name", Val.vstr "Ada"), ("email", Val.vstr "a@b.com")]).1 =
      .ok ⟨"f1", "Ada", "a@b.com", none, none, none, none, "t1"⟩ ∧
    ContactForm.id ⟨"f1", "Ada", "a@b.com", none, none, none, none, "t1"⟩ =
      "f1" ∧
    ContactForm.created_at
        ⟨"f1", "Ada", "a@b.com", none, none, none, none, "t1"⟩ = "t1" ∧
    (submitContactEndpoint "f1" "t1" "o1" ⟨true, [], [], true⟩
        [("name", Val.vstr "Ada"), ("email", Val.vstr "a@b.com")]).2 =
      { DB.mk true [] [] true with contacts :=
        ([] : List Dict) ++
          [ContactForm.model_dump
              ⟨"f1", "Ada", "a@b.com", none, none, none, none, "t1"⟩ ++
            [("_id", Val.vstr "o1")]] } ∧
    get_contacts "f2" "t2"
        (submitContactEndpoint "f1" "t1" "o1" ⟨true, [], [], true⟩
          [("name", Val.vstr "Ada"), ("email", Val.vstr "a@b.com")]).2 =
      .ok ([] ++ [⟨"f1", "Ada", "a@b.com", none, none, none, none, "t1"⟩]) :=
  C3_submit_contact_amended "f1" "t1" "o1" "f2" "t2" ⟨true, [], [], true⟩
    [("name", Val.vstr "Ada"), ("email", Val.vstr "a@b.com")]
    ⟨"f1", "Ada", "a@b.com", none, none, none, none, "t1"⟩ [] rfl rfl rfl
    rfl rfl

/-- C5 counterexample: when the store is unreachable at process start, the
startup hook catches the failure and only logs it, so the unique index is
never created; if the store later becomes reachable, the service accepts
subscription requests without the constraint and two subscriptions with
the same email both succeed, leaving duplicate subscriber records. -/
theorem C5_startup_not_guaranteed_counterexample :
    (ensure_indexes ⟨false, [], [], false⟩).newsletterUniqueIndex = false ∧
    (subscribeEndpoint "f1" "t1" "o1"
        (applyOp (ensure_indexes ⟨false, [], [], false⟩)
          (Op.setConnected true))
        [("email", Val.vstr "x@y.com")]).1 =
      .ok ⟨"f1", "x@y.com", "t1"⟩ ∧
    (subscribeEndpoint "f2" "t2" "o2"
        (subscribeEndpoint "f1" "t1" "o1"
          (applyOp (ensure_indexes ⟨false, [], [], false⟩)
            (Op.setConnected true))
          [("email", Val.vstr "x@y.com")]).2
        [("email", Val.vstr "x@y.com")]).1 =
      .ok ⟨"f2", "x@y.com", "t2"⟩ ∧
    ¬ noDupEmails
        (subscribeEndpoint "f2" "t2" "o2"
          (subscribeEndpoint "f1" "t1" "o1"
            (applyOp (ensure_indexes ⟨false, [], [], false⟩)
              (Op.setConnected true))
            [("email", Val.vstr "x@y.com")]).2
          [("email", Val.vstr "x@y.com")]).2.newsletter := by
  refine ⟨rfl, rfl, rfl, ?_⟩
  simp only [noDupEmails]
  decide

/-- C5 amended: the startup step is idempotent and, whenever the store is
reachable at startup, establishes the unique index; when the store is
unreachable the step leaves the state unchanged (the failure is only
logged) and the service runs without the constraint. -/
theorem C5_ensure_indexes_amended (db : DB) :
    (db.connected = true →
      (ensure_indexes db).newsletterUniqueIndex = true) ∧
    ensure_indexes (ensure_indexes db) = ensure_indexes db ∧
    (db.connected = false → ensure_indexes db = db) := by
  unfold ensure_indexes
  cases hc : db.connected <;> simp [hc]

/-- C5 amended witness: a store reachable at startup and one that is
not. -/
theorem C5_ensure_indexes_amended_witness :
    (ensure_indexes ⟨true, [], [], false⟩).newsletterUniqueIndex = true ∧
    ensure_indexes ⟨false, [], [], false⟩ = ⟨false, [], [], false⟩ :=
  ⟨(C5_ensure_indexes_amended ⟨true, [], [], false⟩).1 rfl,
    (C5_ensure_indexes_amended ⟨false, [], [], false⟩).2.2 rfl⟩

end SmsDigi

